import Mathlib

/-
Verification of the conversation-state engine of `helloscottk/xexi`
(`src/ai_models/llm_handler.py` plus the call-lifecycle glue in
`src/app.py`).  The Python code is shallowly embedded: dictionaries become
association lists, `random.choice` becomes an explicit pick index,
Python floats become integers scaled by ten (every float constant in the
source is a multiple of 0.1, so this is exact), and a call that raises
an exception is embedded as `none` / a tagged outcome.
-/

namespace Xexi

/-! ## String helpers: Python `str.lower` and the `in` substring test -/

/-- Python `str.lower()` (all keyword data is ASCII). -/
def lowerStr (s : String) : String := String.mk (s.data.map Char.toLower)

/-- Helper for the substring test: does `needle` occur in `hay`? -/
def substrAux (needle : List Char) : List Char → Bool
  | [] => needle.isEmpty
  | c :: t => needle.isPrefixOf (c :: t) || substrAux needle t

/-- Python `needle in hay` on strings (substring containment). -/
def containsSub (hay needle : String) : Bool := substrAux needle.data hay.data

/-- Python `min(a, b)` on numbers (kernel-reducible, unlike the lattice
`min`). -/
def pymin (a b : Int) : Int := if a ≤ b then a else b

/-! ## Data model -/

/-- One entry of a conversation history (`{'role': ..., 'content': ...}`). -/
structure Msg where
  role : String
  content : String
deriving DecidableEq, Repr

/-- Per-call mutable state, `NSFWLLMHandler.call_state[call_id]`.
`explicit_mode` / `explicit_cooldown` are absent from the initial dict and
read with `.get(..., default)`; they are modelled as fields with the
default as initial value.  `last_escalation` stores `time.time()` in the
source; only its presence matters, so it is a `Bool` here.  `mood` and
`engagement` are Python floats whose every constant and increment in the
source (0.3, 0.2, 0.5, 0.7, 1, -1) is a multiple of 0.1, so they are
embedded exactly as integers in tenths: source value v ↦ 10·v. -/
structure CallState where
  level : Nat
  last_ai : String
  mood : Int
  engagement : Int
  last_escalation : Bool
  escalation_cooldown : Int
  explicit_mode : Bool
  explicit_cooldown : Int
deriving DecidableEq, Repr

/-- The dict created by `_get_state` on first sight of a call id. -/
def initState : CallState :=
  { level := 0, last_ai := "", mood := 0, engagement := 0,
    last_escalation := false, escalation_cooldown := 0,
    explicit_mode := false, explicit_cooldown := 0 }

/-! ## Escalation engine (`NSFWLLMHandler._escalate`) -/

/-- The `triggers` dict of `_escalate`: four tiers (flirty, naughty,
explicit, filthy in dict order), each a list of keyword groups. -/
def triggers : List (List (List String)) :=
  [ [ ["hello", "hi", "hey", "how are you", "what\x27s up"],
      ["beautiful", "sexy", "hot", "gorgeous"],
      ["talk", "chat", "conversation"] ],
    [ ["touch", "stroke", "rub", "finger", "panties", "hard", "wet"],
      ["kiss", "lick", "suck", "taste"],
      ["clothes", "naked", "undress", "strip"] ],
    [ ["fuck", "cum", "moan", "pussy", "cock", "dick", "ass"],
      ["suck", "lick", "slut", "whore"],
      ["want", "need", "please", "beg"] ],
    [ [ "fucking", "deep", "inside", "ride", "scream", "orgasm"],
      ["finish", "cum for me", "make me cum"],
      ["harder", "faster", "more", "again"] ] ]

/-- Does some keyword of the group occur in the lowered utterance? -/
def groupMatches (ul : String) (g : List String) : Bool :=
  g.any (fun w => containsSub ul w)

/-- Index of the first tier containing a matching keyword group, scanning
tiers in dict order exactly as the nested `for` loops do. -/
def findTier (ul : String) : List (List (List String)) → Option Nat
  | [] => none
  | t :: ts =>
      if t.any (groupMatches ul) then some 0
      else (findTier ul ts).map (· + 1)

/-- Embedding of `_escalate(user_input, state)`.  The source scans the trigger tiers
and, on the first keyword match while `escalation_cooldown <= 0`, mutates
the state and returns the level.  Every other control path falls through
to `if len(self.conversation_history.get(call_id, [])) > 3:`, which reads
the name `call_id` that is not bound in the function scope, raising
`NameError`; the exception (no level, no mutation) is embedded as `none`.
The trailing cooldown decrement of the source is below that line and is
therefore never executed. -/
def escalate (user_input : String) (state : CallState) :
    Option (Nat × CallState) :=
  let ul := lowerStr user_input
  match findTier ul triggers with
  | some t =>
      if state.escalation_cooldown ≤ 0 then
        let state' :=
          { state with
              level := max state.level t,
              last_escalation := true,
              escalation_cooldown := 2,
              mood := pymin 10 (state.mood + 3) }
        some (state'.level, state')
      else none
  | none => none

/-! ## Response banks and the selector (`_generate_fallback_response`) -/

/-- Embedding of `random.choice(l)` with the random draw made explicit: `pick` is the
oracle for the uniform choice and theorems quantify over it.  Every call
site passes a non-empty list. -/
def choice (pick : Nat) (l : List String) : String :=
  l.getD (pick % l.length) ""

/-- The `flirty` bank (level 0). -/
def flirty : List String :=
  [ "Hey there, sexy... I\x27ve been waiting for your call.",
    "You sound so good, I can\x27t help but get excited.",
    "Mmm, your voice is making me tingle all over.",
    "I love the way you talk to me... keep going.",
    "You have no idea what you do to me.",
    "I can\x27t stop thinking about you.",
    "You make me feel so naughty just by calling.",
    "I want to know all your secrets tonight.",
    "You make my heart race, baby.",
    "I want to hear every dirty thought you have.",
    "I bet you look so good right now.",
    "I wish I could see you... and touch you.",
    "You make me want to do bad things.",
    "I love it when you call me late at night.",
    "You always know how to turn me on.",
    "I\x27m getting so wet just hearing your voice.",
    "Tell me what you\x27re wearing right now.",
    "I want to know every inch of your body.",
    "You make me feel so dirty and I love it.",
    "I\x27m touching myself thinking about you." ]

/-- The `naughty` bank (level 1). -/
def naughty : List String :=
  [ "I\x27m slipping my hand under my panties... are you?",
    "Tell me what you want to do to me, don\x27t be shy.",
    "I\x27m starting to get so wet just thinking about you.",
    "I want to hear you moan for me.",
    "I\x27m biting my lip, imagining your hands on my body.",
    "I want you to tell me your dirtiest fantasy.",
    "I\x27m touching myself right now... are you?",
    "I want to hear you say my name while you touch yourself.",
    "I\x27m getting so hot, I can\x27t take it anymore.",
    "I want you to make me beg for it.",
    "I\x27m taking off my clothes, one piece at a time.",
    "I want to feel your lips all over me.",
    "I\x27m aching for you, baby.",
    "I want to hear you lose control.",
    "Let me hear how much you want me.",
    "I\x27m spreading my legs just for you.",
    "I want you to tell me how wet I make you.",
    "I\x27m playing with my nipples, thinking of your mouth.",
    "I want to feel your hands all over me.",
    "I\x27m getting so fucking horny for you." ]

/-- The `explicit` bank (level 2). -/
def explicitBank : List String :=
  [ "I\x27m so fucking wet for you right now.",
    "Put your finger in for me... deeper... don\x27t stop.",
    "I want you to fuck me so hard I can\x27t walk tomorrow.",
    "Let me hear you moan, you dirty little slut.",
    "I\x27m spreading my legs just for you.",
    "I want to feel your cock inside me.",
    "I\x27m playing with my nipples, thinking of your tongue.",
    "I want you to make me cum so hard.",
    "I\x27m stroking myself, wishing it was you.",
    "I want you to talk dirty to me, don\x27t hold back.",
    "I\x27m dripping for you, baby.",
    "I want to ride you until you can\x27t take it anymore.",
    "I\x27m begging you to fuck me harder.",
    "I want to taste you all night long.",
    "I\x27m so close... don\x27t stop.",
    "I want you to fill me up with your cum.",
    "I\x27m your dirty little slut, use me however you want.",
    "I want to feel you deep inside me.",
    "I\x27m moaning your name while I touch myself.",
    "I want you to make me scream with pleasure." ]

/-- The `filthy` bank (level 3). -/
def filthy : List String :=
  [ "I want you to fuck me until I scream your name.",
    "I\x27m your filthy little slut, use me however you want.",
    "I want you to cum all over me, make me your mess.",
    "I\x27m fingering my ass for you, moaning your name.",
    "I want you to choke me while you fuck me.",
    "I\x27m so fucking horny, I can\x27t control myself.",
    "I want you to make me squirt all over the bed.",
    "I\x27m begging for your cock, fill me up.",
    "I want you to spank me until I cry out.",
    "I\x27m touching every inch of my body for you.",
    "I want you to call me your dirty whore.",
    "I\x27m moaning so loud, the neighbors can hear.",
    "I want you to fuck my brains out.",
    "I\x27m dripping wet, aching for you to fill me.",
    "I want you to make me cum again and again.",
    "I\x27m your personal fuck toy, use me however you want.",
    "I want you to cum deep inside my pussy.",
    "I\x27m begging for your cock in my ass.",
    "I want you to make me your little cum slut.",
    "I\x27m so fucking desperate for your cock right now." ]

/-- The `banks = [flirty, naughty, explicit, filthy]` list. -/
def banks : List (List String) := [flirty, naughty, explicitBank, filthy]

/-- Command-category bank for `['moan', 'sound', 'noise']`. -/
def moanResponses : List String :=
  [ "*moans loudly* Oh god, yes...",
    "*gasps and moans* That\x27s so good...",
    "*breathes heavily* Mmm, you make me feel so dirty...",
    "*moans* I want you so bad...",
    "*screams* Fuck yes, baby!",
    "*moans deeply* Don\x27t stop...",
    "*gasps* You make me so wet...",
    "*moans* I\x27m getting so close..." ]

/-- Command-category bank for `['clothes', 'naked', 'undress', 'strip']`. -/
def clothesResponses : List String :=
  [ "I\x27m taking my clothes off now... you should too.",
    "I\x27m getting naked for you, piece by piece.",
    "I\x27m slipping out of my panties, just for you.",
    "I\x27m completely naked now, what are you going to do to me?",
    "I\x27m stripping for you, getting so fucking wet.",
    "I\x27m taking everything off, just for you.",
    "I\x27m getting completely naked, thinking of your hands on me.",
    "I\x27m undressing slowly, making you wait for it." ]

/-- Command-category bank for `['touch', 'finger', 'stroke', 'rub']`. -/
def touchResponses : List String :=
  [ "I\x27m touching myself for you...",
    "I\x27m sliding my fingers inside, thinking of you.",
    "I\x27m stroking myself, wishing it was your hand.",
    "I\x27m rubbing my clit, moaning your name...",
    "I\x27m fingering myself, getting so wet for you.",
    "I\x27m touching every inch of my body, imagining it\x27s you.",
    "I\x27m playing with my pussy, thinking of your cock.",
    "I\x27m rubbing myself raw, just for you." ]

/-- Command-category bank for
`['fuck', 'cock', 'dick', 'pussy', 'cum', 'ass', 'suck', 'lick']`. -/
def fuckResponses : List String :=
  [ "I want you to fuck me so hard.",
    "I want to feel your cock deep inside me.",
    "I\x27m begging for your dick, fill me up.",
    "I want to suck you off until you cum.",
    "I want your cock pounding my pussy.",
    "I\x27m so wet, ready for your dick.",
    "I want to feel you cum inside me.",
    "I\x27m begging for your cock right now." ]

/-- The previously emitted assistant lines of a call
(`set(msg['content'] for msg in history if msg['role'] == 'assistant')`). -/
def usedOf (hist : List Msg) : List String :=
  (hist.filter (fun m => m.role = "assistant")).map (fun m => m.content)

/-- The final `for lvl in range(min(level, len(banks)-1), -1, -1)` walk:
at each level filter out already-used lines and return a choice from the
first non-empty candidate set; `none` when every tier is exhausted. -/
def bankWalk (used : List String) (pick : Nat) : Nat → Option String
  | 0 =>
      let options := (banks.getD 0 []).filter (fun r => ! used.contains r)
      if options.isEmpty then none else some (choice pick options)
  | lvl + 1 =>
      let options :=
        (banks.getD (lvl + 1) []).filter (fun r => ! used.contains r)
      if options.isEmpty then bankWalk used pick lvl
      else some (choice pick options)

/-- Embedding of `_generate_fallback_response(user_input, call_id,
level)`.  The
conversation history of the call is passed explicitly (the source reads it
from `self.conversation_history.get(call_id, [])`). -/
def generate_fallback_response (user_input : String) (hist : List Msg)
    (level : Nat) (pick : Nat) : String :=
  let used := usedOf hist
  let user_lower := lowerStr user_input
  if ["moan", "sound", "noise"].any (containsSub user_lower) then
    choice pick moanResponses
  else if ["clothes", "naked", "undress", "strip"].any
      (containsSub user_lower) then
    choice pick clothesResponses
  else if ["touch", "finger", "stroke", "rub"].any
      (containsSub user_lower) then
    choice pick touchResponses
  else if ["fuck", "cock", "dick", "pussy", "cum", "ass", "suck",
      "lick"].any (containsSub user_lower) then
    choice pick fuckResponses
  else
    match bankWalk used pick (min level (banks.length - 1)) with
    | some r => r
    | none => "*moans* ... Tell me more, baby."

/-! ## Contextual explicit generator
(`_generate_contextual_explicit_response`) -/

/-- Category bank: clothing/undressing. -/
def clothingCategory : List String :=
  [ "Mmm, that makes me so wet... when you get down there, clean me up with your tongue.",
    "Oh fuck yes, I\x27m already dripping for you... lick me clean when you\x27re done undressing me.",
    "I\x27m getting so fucking wet just thinking about it... use your mouth on me when you get there.",
    "That\x27s making my pussy so wet... I want to feel your tongue all over me." ]

/-- Category bank: touching/physical contact. -/
def touchingCategory : List String :=
  [ "Touch me everywhere... I want your hands all over my body, especially between my legs.",
    "Grab me harder... I love feeling your strong hands on my tits and ass.",
    "Feel how wet you make me... slide your fingers inside while you touch me.",
    "Squeeze my tits while you finger my pussy... I want to feel you everywhere." ]

/-- Category bank: oral references. -/
def oralCategory : List String :=
  [ "I want your tongue deep inside me... lick my pussy until I cum all over your face.",
    "Suck on my clit while you finger me... I want to cum in your mouth.",
    "Taste how wet I am for you... eat my pussy like you\x27re starving for it.",
    "I want to feel your mouth everywhere... lick me from my tits down to my ass." ]

/-- Category bank: anal/ass references. -/
def analCategory : List String :=
  [ "I want you to spank my ass until it\x27s red, then slide your cock deep inside my tight asshole.",
    "Spread my ass cheeks and fuck me hard... I want to feel you in my ass.",
    "Lick my ass and then fuck it... make me your dirty anal slut.",
    "Spank me while you fuck my ass... I want to feel your hand and your cock at the same time." ]

/-- Category bank: penetration references. -/
def penetrationCategory : List String :=
  [ "Push your cock deep inside my wet pussy... I want to feel every inch of you.",
    "Slide it in slowly, then fuck me hard... I want you so deep inside me.",
    "I\x27m so wet and ready for you... push deeper, I can take all of you.",
    "Fill me up completely... I want your cock stretching my tight pussy." ]

/-- Category bank: position/action requests. -/
def positionCategory : List String :=
  [ "I want to ride your cock until you can\x27t take it anymore... watch my tits bounce while I fuck you.",
    "Bend me over and fuck me from behind... pull my hair while you pound my pussy.",
    "I want to be on top so I can control how deep you go... let me ride you hard.",
    "Take me from behind like the dirty slut I am... spank my ass while you fuck me." ]

/-- Category bank: intensity/roughness. -/
def intensityCategory : List String :=
  [ "Fuck me harder... I want you to pound my pussy until I scream.",
    "Be rough with me... I love it when you fuck me like a dirty whore.",
    "Slam your cock into me... I want to feel you hitting my cervix.",
    "Don\x27t hold back... fuck me as hard as you can, I can take it." ]

/-- Category bank: climax references. -/
def climaxCategory : List String :=
  [ "I want to cum all over your cock... keep fucking me until I explode.",
    "Make me cum so hard I can\x27t think... I want to scream your name when I orgasm.",
    "I\x27m going to cum all over you... don\x27t stop, I\x27m so fucking close.",
    "Cum inside my pussy... I want to feel you filling me up when you orgasm." ]

/-- Union of the eight contextual-category candidate sets; replies drawn
from these banks are "contextual-explicit-category replies". -/
def contextualCategoryReplies : List String :=
  clothingCategory ++ touchingCategory ++ oralCategory ++ analCategory ++
    penetrationCategory ++ positionCategory ++ intensityCategory ++
    climaxCategory

/-- Embedding of `_generate_contextual_explicit_response(user_input,
call_id)`: the
fixed ordered cascade of category keyword tests, each returning a random
choice from its bank; no category match falls back to
`_generate_fallback_response(user_input, call_id, 3)` (the filthy level).
-/
def generate_contextual_explicit_response (user_input : String)
    (hist : List Msg) (pick : Nat) : String :=
  let user_lower := lowerStr user_input
  if ["take off", "remove", "pants off", "panties off", "clothes off",
      "strip", "undress"].any (containsSub user_lower) then
    choice pick clothingCategory
  else if ["touch you", "feel you", "hands on", "grab you",
      "squeeze"].any (containsSub user_lower) then
    choice pick touchingCategory
  else if ["lick", "tongue", "mouth", "suck", "taste", "eat"].any
      (containsSub user_lower) then
    choice pick oralCategory
  else if ["anal", "ass", "asshole", "ass fuck", "fuck my ass",
      "in my ass", "spank", "spanking", "spank me"].any
      (containsSub user_lower) then
    choice pick analCategory
  else if ["inside", "deep", "penetrate", "enter", "slide in",
      "push in"].any (containsSub user_lower) then
    choice pick penetrationCategory
  else if ["bend over", "on top", "from behind", "doggy", "ride"].any
      (containsSub user_lower) then
    choice pick positionCategory
  else if ["harder", "rough", "hard", "fast", "pound", "slam"].any
      (containsSub user_lower) then
    choice pick intensityCategory
  else if ["cum", "orgasm", "climax", "finish", "come"].any
      (containsSub user_lower) then
    choice pick climaxCategory
  else
    generate_fallback_response user_input hist 3 pick

/-! ## External generation provider (`_generate_api_response`) -/

/-- Outcome of the network call to the provider: the source wraps the
whole request in `try/except Exception` and checks the HTTP status, so
the visible outcomes are a 200 body, a non-200 status, or a raised
exception (network error / timeout). -/
inductive ApiOutcome where
  | ok (text : String)
  | httpError (code : Nat)
  | networkError
  | timeout
deriving DecidableEq, Repr

/-- Embedding of `_generate_api_response`: a 200 body is stripped and truncated to 200
characters (plus "..."); every other outcome — non-200 status, network
error, timeout, any raised exception — is caught and becomes `None`. -/
def generate_api_response : ApiOutcome → Option String
  | .ok text =>
      let ai := text.trim
      some (if ai.length > 200 then ai.take 200 ++ "..." else ai)
  | .httpError _ => none
  | .networkError => none
  | .timeout => none

/-! ## Speech post-processor (`_sanitize_for_speech`) -/

/-- Python `\w` word character (the strings here are ASCII). -/
def isWordChar (c : Char) : Bool := c.isAlphanum || c == '_'

/-- Split a character list into maximal runs of word / non-word
characters (the boolean tags whether the run is a word run). -/
def tokenize : List Char → List (Bool × List Char)
  | [] => []
  | c :: rest =>
      let w := isWordChar c
      match tokenize rest with
      | (w2, cs) :: ts =>
          if w == w2 then (w, c :: cs) :: ts else (w, [c]) :: (w2, cs) :: ts
      | [] => [(w, [c])]

/-- A word run matched by `\bmmm+\b` with `IGNORECASE`: three or more
letters, all `m`/`M`.  Because the pattern consists of word characters
bracketed by `\b`, it matches exactly the complete maximal word runs of
this shape. -/
def isMoanRun (cs : List Char) : Bool :=
  decide (cs.length ≥ 3) && cs.all (fun c => c.toLower == 'm')

/-- A word run matched by `\buhh+\b` with `IGNORECASE`: a `u` followed by
two or more `h`s. -/
def isGaspRun : List Char → Bool
  | [] => false
  | c :: rest =>
      c.toLower == 'u' && decide (rest.length ≥ 2) &&
        rest.all (fun d => d.toLower == 'h')

/-- Rebuild a string from tagged runs. -/
def joinRuns (ts : List (Bool × List Char)) : List Char :=
  ts.foldr (fun t acc => t.2 ++ acc) []

/-- First substitution,
`re.sub(r'\bmmm+\b', '*moans*', text, flags=re.IGNORECASE)`. -/
def replaceMmm (text : String) : String :=
  String.mk (joinRuns ((tokenize text.data).map
    (fun t => if t.1 && isMoanRun t.2 then (t.1, "*moans*".data) else t)))

/-- Second substitution,
`re.sub(r'\buhh+\b', '*gasps*', text, flags=re.IGNORECASE)`. -/
def replaceUhh (text : String) : String :=
  String.mk (joinRuns ((tokenize text.data).map
    (fun t => if t.1 && isGaspRun t.2 then (t.1, "*gasps*".data) else t)))

/-- Embedding of `str.replace('...', '... *breathes* ')`: left-to-right, non
overlapping. -/
def replaceDots : List Char → List Char
  | '.' :: '.' :: '.' :: rest => "... *breathes* ".data ++ replaceDots rest
  | c :: rest => c :: replaceDots rest
  | [] => []

/-- Third substitution of the post-processor. -/
def replaceEllipsis (text : String) : String :=
  String.mk (replaceDots text.data)

/-- Embedding of `_sanitize_for_speech`: the three substitutions in
source order. -/
def sanitize_for_speech (text : String) : String :=
  replaceEllipsis (replaceUhh (replaceMmm text))

/-! ## Turn orchestrator (`generate_response`) -/

/-- The `explicit_triggers` list of `generate_response`. -/
def explicit_triggers : List String :=
  [ "fuck", "cock", "pussy", "cum", "ass", "tits", "dick", "suck",
    "lick", "wet", "hard", "horny", "naked", "strip", "panties", "bra",
    "touch", "feel", "grab", "squeeze", "finger", "tongue", "mouth",
    "taste", "inside", "deep", "penetrate", "ride", "bend over", "doggy",
    "rough", "anal", "asshole", "spank", "spanking", "ass fuck",
    "fuck my ass", "in my ass" ]

/-- Test `any(trigger in user_input.lower() for trigger in
explicit_triggers)`. -/
def hasExplicitTrigger (user_input : String) : Bool :=
  explicit_triggers.any (containsSub (lowerStr user_input))

/-- The provider text actually used by the orchestrator: requires the API
key to be configured and the (already error-masked) result to be a
non-empty string (`if api_response:`). -/
def apiText (apiKey : Bool) (api : ApiOutcome) : Option String :=
  if apiKey then
    match generate_api_response api with
    | some r => if r = "" then none else some r
    | none => none
  else none

/-- Embedding of `generate_response(user_input, call_id)`.  The
per-call state and
history are explicit; `apiKey` models the truthiness of
`self.config.OPENAI_API_KEY`, `api` the outcome of the provider call, and
`pick` the random draw.  Returns the spoken reply and the new state. -/
def generate_response (user_input : String) (state : CallState)
    (hist : List Msg) (apiKey : Bool) (api : ApiOutcome) (pick : Nat) :
    String × CallState :=
  if hasExplicitTrigger user_input then
    let s1 := { state with explicit_mode := true, explicit_cooldown := 3 }
    let response := generate_contextual_explicit_response user_input hist pick
    (sanitize_for_speech response, { s1 with last_ai := response })
  else if state.explicit_cooldown > 0 then
    let s1 := { state with explicit_cooldown := state.explicit_cooldown - 1 }
    let response := generate_contextual_explicit_response user_input hist pick
    (sanitize_for_speech response, { s1 with last_ai := response })
  else
    let s1 := { state with explicit_mode := false }
    match apiText apiKey api with
    | some r => (sanitize_for_speech r, { s1 with last_ai := r })
    | none =>
        let response := generate_fallback_response user_input hist 0 pick
        (sanitize_for_speech response, { s1 with last_ai := response })

/-! ## Handler-level store (`NSFWLLMHandler` fields and
`clear_conversation`) -/

/-- The two process-wide dicts of `NSFWLLMHandler`, as association
lists keyed by call identifier. -/
structure Handler where
  conversation_history : List (String × List Msg)
  call_state : List (String × CallState)
deriving DecidableEq, Repr

/-- Fresh handler (`self.conversation_history = {}`,
`self.call_state = {}`). -/
def emptyHandler : Handler := { conversation_history := [], call_state := [] }

/-- Replace (or append) the binding of a key in an association list. -/
def updateAssoc : List (String × CallState) → String → CallState →
    List (String × CallState)
  | [], k, v => [(k, v)]
  | (k', v') :: t, k, v =>
      if k' = k then (k, v) :: t else (k', v') :: updateAssoc t k v

/-- Python `del d[k]` on an association list. -/
def eraseAssoc {α : Type} (l : List (String × α)) (k : String) :
    List (String × α) :=
  l.filter (fun p => p.1 != k)

/-- Embedding of `_get_state(call_id)`: look up the per-call dict,
creating the
default one on first sight. -/
def get_state (h : Handler) (call_id : String) : CallState × Handler :=
  match h.call_state.lookup call_id with
  | some s => (s, h)
  | none =>
      (initState,
        { h with call_state := h.call_state ++ [(call_id, initState)] })

/-- Wrapper for `generate_response` at handler level: reads the
per-call state and
history out of the shared dicts and writes the mutated state back. -/
def handler_generate (h : Handler) (call_id user_input : String)
    (apiKey : Bool) (api : ApiOutcome) (pick : Nat) : String × Handler :=
  let sh := get_state h call_id
  let hist := (sh.2.conversation_history.lookup call_id).getD []
  let rs := generate_response user_input sh.1 hist apiKey api pick
  (rs.1, { sh.2 with call_state := updateAssoc sh.2.call_state call_id rs.2 })

/-- Embedding of `clear_conversation(call_id)`: the deletion of the
call state is
nested inside the history-entry check, exactly as in the source. -/
def clear_conversation (h : Handler) (call_id : String) : Handler :=
  if (h.conversation_history.lookup call_id).isSome then
    let h1 :=
      { h with
          conversation_history := eraseAssoc h.conversation_history call_id }
    if (h1.call_state.lookup call_id).isSome then
      { h1 with call_state := eraseAssoc h1.call_state call_id }
    else h1
  else h

/-! ## Derived predicates used by the claims -/

/-- The four command-category tests at the top of
`_generate_fallback_response`, as one predicate. -/
def commandMatch (user_input : String) : Bool :=
  ["moan", "sound", "noise"].any (containsSub (lowerStr user_input)) ||
  ["clothes", "naked", "undress", "strip"].any
    (containsSub (lowerStr user_input)) ||
  ["touch", "finger", "stroke", "rub"].any
    (containsSub (lowerStr user_input)) ||
  ["fuck", "cock", "dick", "pussy", "cum", "ass", "suck", "lick"].any
    (containsSub (lowerStr user_input))

/-- The spec's range invariant on a call state: `level ∈ {0,1,2,3}`,
`mood ∈ [-1, 1]` and `engagement ∈ [0, 1]` (values in tenths). -/
def Inv (s : CallState) : Prop :=
  s.level ≤ 3 ∧ -10 ≤ s.mood ∧ s.mood ≤ 10 ∧
    0 ≤ s.engagement ∧ s.engagement ≤ 10

/-- Modelled from the spec (claim C1, for comparison with the code): on
provider absence/failure "run Escalation Engine (4.1) then Response
Selector (4.2) at the resulting level", then post-process and store the
reply.  `none` when the escalation engine raises. -/
def specC1EscalateThenSelect (user_input : String) (state : CallState)
    (hist : List Msg) (pick : Nat) : Option (String × CallState) :=
  (escalate user_input state).map (fun lr =>
    let response := generate_fallback_response user_input hist lr.1 pick
    (sanitize_for_speech response, { lr.2 with last_ai := response }))

/-! ## Helper lemmas -/

/-- A `random.choice` from a non-empty list is a member of it. -/
theorem choice_mem (pick : Nat) {l : List String} (h : l ≠ []) :
    choice pick l ∈ l := by
  have hpos : 0 < l.length := List.length_pos.mpr h
  have hlt : pick % l.length < l.length := Nat.mod_lt _ hpos
  unfold choice
  rw [List.getD_eq_getElem l "" hlt]
  exact List.getElem_mem hlt

/-- Whatever the bank walk returns was filtered against the used set. -/
theorem bankWalk_not_used (used : List String) (pick : Nat) :
    ∀ lvl r, bankWalk used pick lvl = some r → r ∉ used := by
  intro lvl
  induction lvl with
  | zero =>
      intro r h
      simp only [bankWalk] at h
      split at h
      · exact Option.noConfusion h
      · rename_i hcond
        have hne : (banks.getD 0 []).filter
            (fun x => ! used.contains x) ≠ [] := by
          intro hnil
          exact hcond (by rw [hnil]; rfl)
        have hm := choice_mem pick hne
        rw [Option.some.injEq] at h
        rw [h] at hm
        have := (List.mem_filter.mp hm).2
        simpa using this
  | succ l ih =>
      intro r h
      simp only [bankWalk] at h
      split at h
      · exact ih r h
      · rename_i hcond
        have hne : (banks.getD (l + 1) []).filter
            (fun x => ! used.contains x) ≠ [] := by
          intro hnil
          exact hcond (by rw [hnil]; rfl)
        have hm := choice_mem pick hne
        rw [Option.some.injEq] at h
        rw [h] at hm
        have := (List.mem_filter.mp hm).2
        simpa using this

/-- When some bank at or below the walk's start still has an unused
candidate, the walk succeeds. -/
theorem bankWalk_isSome (used : List String) (pick : Nat) :
    ∀ lvl, (∃ lvl', lvl' ≤ lvl ∧ ∃ c ∈ banks.getD lvl' [], c ∉ used) →
      (bankWalk used pick lvl).isSome := by
  intro lvl
  induction lvl with
  | zero =>
      rintro ⟨lvl', hle, c, hc, hcu⟩
      have h0 : lvl' = 0 := Nat.le_zero.mp hle
      subst h0
      simp only [bankWalk]
      split
      · rename_i hcond
        exfalso
        have hmem : c ∈ (banks.getD 0 []).filter
            (fun x => ! used.contains x) :=
          List.mem_filter.mpr ⟨hc, by simpa using hcu⟩
        rw [List.isEmpty_iff] at hcond
        rw [hcond] at hmem
        exact List.not_mem_nil c hmem
      · rfl
  | succ l ih =>
      rintro ⟨lvl', hle, c, hc, hcu⟩
      simp only [bankWalk]
      split
      · rename_i hcond
        apply ih
        refine ⟨lvl', ?_, c, hc, hcu⟩
        rcases Nat.lt_succ_iff_lt_or_eq.mp (Nat.lt_succ_of_le hle)
          with hlt | heq
        · omega
        · exfalso
          have hmem : c ∈ (banks.getD (l + 1) []).filter
              (fun x => ! used.contains x) :=
            List.mem_filter.mpr ⟨heq ▸ hc, by simpa using hcu⟩
          rw [List.isEmpty_iff] at hcond
          rw [hcond] at hmem
          exact List.not_mem_nil c hmem
      · rfl

/-- The tier index found by the trigger scan is within the tier list. -/
theorem findTier_lt_length (ul : String) :
    ∀ ts t, findTier ul ts = some t → t < ts.length := by
  intro ts
  induction ts with
  | nil => intro t h; simp [findTier] at h
  | cons tier rest ih =>
      intro t h
      unfold findTier at h
      by_cases hm : tier.any (groupMatches ul)
      · simp [hm] at h
        simp only [List.length_cons]
        omega
      · simp [hm] at h
        rcases h with ⟨t', ht', rfl⟩
        have := ih t' ht'
        simp only [List.length_cons]
        omega

/-! ## Claim C9: the speech post-processor -/

/-- Claim C9 (confirmed): the Speech Post-Processor applies exactly three
substitutions in order — elongated "mmm" interjections to one cue token,
elongated "uhh" hesitations to a different cue token, then literal "..."
to an ellipsis plus a breathing cue — and it is not idempotent: on the
input "..." applying the transform twice yields a different string than
applying it once (the breathing cue is inserted again). -/
theorem C9_sanitize_order_and_nonidempotence :
    (∀ t, sanitize_for_speech t =
      replaceEllipsis (replaceUhh (replaceMmm t))) ∧
    "*moans*" ≠ "*gasps*" ∧
    sanitize_for_speech (sanitize_for_speech "...") ≠
      sanitize_for_speech "..." :=
  ⟨fun _ => rfl, by decide, by decide⟩

/-! ## Claim C10: `_escalate` raises on every no-trigger path -/

/-- Claim C10 (confirmed): `_escalate` is not a total function of
(utterance, state): whenever the trigger scan does not return early —
no keyword group matches, or `escalation_cooldown > 0` so the early
return is blocked — control reaches the natural-progression branch,
which reads the name `call_id` that is not bound in the function's
scope, so the call raises `NameError` (embedded as `none`) instead of
returning a level. -/
theorem C10_escalate_raises (u : String) (s : CallState)
    (h : findTier (lowerStr u) triggers = none ∨
      0 < s.escalation_cooldown) :
    escalate u s = none := by
  unfold escalate
  rcases h with h | h
  · simp only [h]
  · cases hft : findTier (lowerStr u) triggers with
    | none => simp only [hft]
    | some t =>
        simp only [hft]
        rw [if_neg (by omega)]

/-- Witness for C10 at the concrete utterance "zzz", which matches no
trigger keyword. -/
theorem C10_witness : escalate "zzz" initState = none :=
  C10_escalate_raises "zzz" initState (Or.inl (by decide))

/-! ## Claim C5: the cooldown decrement of `_escalate` -/

/-- Claim C5 (corrected) counterexample: the claim says every call to the
Escalation Engine decrements `escalationCooldown` by exactly 1 (floor 0)
after the trigger logic, including on keyword-trigger turns.  In fact a
no-trigger call raises `NameError` (= `none`) without touching the
cooldown, and a trigger call returns early with the cooldown set to the
constant 2 — not 1, which the claimed set-to-2-then-decrement would
produce. -/
theorem C5_counterexample :
    escalate "zzz" initState = none ∧
    (escalate "hello" initState).map (fun lr => lr.2.escalation_cooldown)
      = some 2 ∧ (2 : Int) ≠ 2 - 1 :=
  ⟨by decide, by decide, by decide⟩

/-- Claim C5 (corrected, amended): the decrement statement of
`_escalate` is unreachable.  A call that returns at all returned early
from a keyword trigger and left `escalation_cooldown` set to the reset
constant 2 (never a decrement of the previous value); every other call
raises `NameError` before the decrement line. -/
theorem C5_cooldown_never_decremented (u : String) (s : CallState)
    (lr : Nat × CallState) (h : escalate u s = some lr) :
    lr.2.escalation_cooldown = 2 := by
  unfold escalate at h
  cases hft : findTier (lowerStr u) triggers with
  | none => simp only [hft] at h; exact Option.noConfusion h
  | some t =>
      simp only [hft] at h
      split at h
      · rw [Option.some.injEq] at h
        rw [← h]
      · exact Option.noConfusion h

/-- Witness for C5's amended theorem at the utterance "hello". -/
theorem C5_witness :
    (((0 : Nat),
      ({ level := 0, last_ai := "", mood := 3, engagement := 0,
         last_escalation := true, escalation_cooldown := 2,
         explicit_mode := false, explicit_cooldown := 0 } : CallState)) :
        Nat × CallState).2.escalation_cooldown = 2 :=
  C5_cooldown_never_decremented "hello" initState _ (by decide)

/-! ## Claim C8: provider failures never propagate -/

/-- Claim C8 (confirmed): every failure of the external generation
provider — non-200 HTTP status, network error, timeout (and any other
exception, all caught by the `try/except` around the request) — yields
`None` from `_generate_api_response`, and `generate_response` on a
failing provider behaves exactly as with no provider configured: it
returns the locally generated reply and never surfaces an error. -/
theorem C8_provider_failure_is_local (u : String) (s : CallState)
    (hist : List Msg) (pick : Nat) :
    (∀ code, generate_api_response (ApiOutcome.httpError code) = none) ∧
    generate_api_response ApiOutcome.networkError = none ∧
    generate_api_response ApiOutcome.timeout = none ∧
    (∀ api : ApiOutcome, generate_api_response api = none →
      generate_response u s hist true api pick =
        generate_response u s hist false api pick) := by
  refine ⟨fun _ => rfl, rfl, rfl, fun api hapi => ?_⟩
  unfold generate_response
  have hx : apiText true api = apiText false api := by
    simp [apiText, hapi]
  rw [hx]

/-- Witness for C8 at a concrete timed-out provider call. -/
theorem C8_witness :
    generate_response "hi" initState [] true ApiOutcome.timeout 0 =
      generate_response "hi" initState [] false ApiOutcome.timeout 0 :=
  (C8_provider_failure_is_local "hi" initState [] 0).2.2.2
    ApiOutcome.timeout rfl

/-! ## Claim C6: state ranges -/

/-- Lemma: `generate_response` never touches `level`, `mood`,
`engagement` or
`escalation_cooldown` (the escalation engine is never invoked by it). -/
theorem generate_response_untouched_fields (u : String) (s : CallState)
    (hist : List Msg) (apiKey : Bool) (api : ApiOutcome) (pick : Nat) :
    (generate_response u s hist apiKey api pick).2.level = s.level ∧
    (generate_response u s hist apiKey api pick).2.mood = s.mood ∧
    (generate_response u s hist apiKey api pick).2.engagement =
      s.engagement ∧
    (generate_response u s hist apiKey api pick).2.escalation_cooldown =
      s.escalation_cooldown := by
  unfold generate_response
  split
  · exact ⟨rfl, rfl, rfl, rfl⟩
  · split
    · exact ⟨rfl, rfl, rfl, rfl⟩
    · cases hx : apiText apiKey api
      · simp [hx]
      · simp [hx]

/-- Claim C6 (confirmed): for every call identifier and after any number
of processed turns, `level ∈ {0,1,2,3}`, `mood ∈ [-1,1]` and
`engagement ∈ [0,1]` (in tenths here): the fresh state satisfies the
ranges, and every operation that modifies these fields — a processed
turn (`generate_response`) and a returning call of the escalation engine
(`_escalate`) — preserves them. -/
theorem C6_state_ranges :
    Inv initState ∧
    (∀ u s hist apiKey api pick, Inv s →
      Inv (generate_response u s hist apiKey api pick).2) ∧
    (∀ u s lr, Inv s → escalate u s = some lr → Inv lr.2) := by
  refine ⟨⟨by decide, by decide, by decide, by decide, by decide⟩,
    fun u s hist apiKey api pick hs => ?_, fun u s lr hs h => ?_⟩
  · obtain ⟨h1, h2, h3, h4, h5⟩ := hs
    obtain ⟨e1, e2, e3, _⟩ :=
      generate_response_untouched_fields u s hist apiKey api pick
    exact ⟨e1 ▸ h1, e2 ▸ h2, e2 ▸ h3, e3 ▸ h4, e3 ▸ h5⟩
  · obtain ⟨h1, h2, h3, h4, h5⟩ := hs
    unfold escalate at h
    cases hft : findTier (lowerStr u) triggers with
    | none => simp only [hft] at h; exact Option.noConfusion h
    | some t =>
        simp only [hft] at h
        split at h
        · rw [Option.some.injEq] at h
          have ht4 : t < 4 := by
            have := findTier_lt_length (lowerStr u) triggers t hft
            simpa using this
          rw [← h]
          refine ⟨max_le h1 (by omega), ?_, ?_, h4, h5⟩
          · show -10 ≤ pymin 10 (s.mood + 3)
            unfold pymin
            split <;> omega
          · show pymin 10 (s.mood + 3) ≤ 10
            unfold pymin
            split <;> omega
        · exact Option.noConfusion h

/-- Witness for C6 at a concrete turn and a concrete returning call of
the escalation engine. -/
theorem C6_witness :
    Inv (generate_response "hi" initState [] false ApiOutcome.timeout 0).2
      ∧
    Inv (({ level := 0, last_ai := "", mood := 3, engagement := 0,
            last_escalation := true, escalation_cooldown := 2,
            explicit_mode := false, explicit_cooldown := 0 } :
          CallState)) :=
  ⟨C6_state_ranges.2.1 "hi" initState [] false ApiOutcome.timeout 0
      ⟨by decide, by decide, by decide, by decide, by decide⟩,
    C6_state_ranges.2.2 "hello" initState
      ((0 : Nat),
        { level := 0, last_ai := "", mood := 3, engagement := 0,
          last_escalation := true, escalation_cooldown := 2,
          explicit_mode := false, explicit_cooldown := 0 })
      ⟨by decide, by decide, by decide, by decide, by decide⟩
      (by decide)⟩

/-! ## Claim C1: the orchestrator and the escalation engine -/

/-- Claim C1 (corrected) counterexample: on the no-trigger, cooldown-0,
provider-absent turn "kiss" from a fresh state, the claimed pipeline
(escalation engine, then selector at the resulting level) and the real
orchestrator disagree: the claimed pipeline escalates to level 1
(`mood = 0.3`, a naughty-tier reply) while `generate_response` leaves
`mood = 0` and selects at level 0 — it never calls `_escalate`. -/
theorem C1_counterexample :
    specC1EscalateThenSelect "kiss" initState [] 0 ≠
      some (generate_response "kiss" initState [] false
        ApiOutcome.networkError 0) ∧
    (generate_response "kiss" initState [] false
      ApiOutcome.networkError 0).2.mood = 0 ∧
    (specC1EscalateThenSelect "kiss" initState [] 0).map
      (fun p => p.2.mood) = some 3 :=
  ⟨by decide, by decide, by decide⟩

/-- Claim C1 (corrected, amended): for every turn whose utterance
contains no explicit-trigger keyword and whose call state has
`explicitCooldown = 0`, if the external generation provider is not
configured or its call fails, the orchestrator does NOT run the
Escalation Engine: it selects the reply with the Response Selector at
the fixed level 0 and leaves `level`, `mood`, `engagement` and the
escalation cooldown unchanged (only `explicit_mode` is reset and the
reply is stored in `last_ai`). -/
theorem C1_selector_at_level_zero (u : String) (s : CallState)
    (hist : List Msg) (apiKey : Bool) (api : ApiOutcome) (pick : Nat)
    (htrig : hasExplicitTrigger u = false)
    (hcd : s.explicit_cooldown = 0)
    (hapi : apiText apiKey api = none) :
    generate_response u s hist apiKey api pick =
      (sanitize_for_speech (generate_fallback_response u hist 0 pick),
        { s with explicit_mode := false,
                 last_ai := generate_fallback_response u hist 0 pick }) := by
  unfold generate_response
  simp [htrig, hcd, hapi]

/-- Witness for C1's amended theorem at the turn "kiss" of a fresh call
with no provider configured. -/
theorem C1_witness :
    generate_response "kiss" initState [] false ApiOutcome.networkError 0
      =
      (sanitize_for_speech (generate_fallback_response "kiss" [] 0 0),
        { initState with explicit_mode := false,
                         last_ai :=
                           generate_fallback_response "kiss" [] 0 0 }) :=
  C1_selector_at_level_zero "kiss" initState [] false
    ApiOutcome.networkError 0 (by decide) (by decide) (by decide)

/-! ## Claim C2: the echo guard -/

/-- Claim C2 (corrected) counterexample: with `lastAiUtterance = "Touch"`
and the incoming utterance "touch" — equal to it case-insensitively
(both already whitespace-trimmed) — the reply at this turn is not a
fixed filler and the escalation-state does change: `explicit_cooldown`
jumps from 0 to 3, because the utterance is processed like any other
and hits the explicit-trigger branch.  No echo guard exists in the
code. -/
theorem C2_counterexample :
    lowerStr "touch" =
      lowerStr (({ initState with last_ai := "Touch" } :
        CallState).last_ai) ∧
    ({ initState with last_ai := "Touch" } :
        CallState).explicit_cooldown = 0 ∧
    (generate_response "touch" { initState with last_ai := "Touch" } []
      false ApiOutcome.networkError 0).2.explicit_cooldown = 3 ∧
    (3 : Int) ≠ 0 :=
  ⟨by decide, by decide, by decide, by decide⟩

/-- Claim C2 (corrected, amended): there is no echo guard:
`generate_response` never reads `lastAiUtterance`.  Two states that
differ only in `last_ai` produce the identical reply and identical
output state on every utterance. -/
theorem C2_no_echo_guard (u : String) (s : CallState) (hist : List Msg)
    (apiKey : Bool) (api : ApiOutcome) (pick : Nat) (la₁ la₂ : String) :
    generate_response u { s with last_ai := la₁ } hist apiKey api pick =
      generate_response u { s with last_ai := la₂ } hist apiKey api
        pick := rfl

/-! ## Claim C3: deduplication in the response selector -/

/-- Claim C3 (corrected) counterexample: the Response Selector can
return a previously emitted reply while un-emitted candidates at or
below the current level exist.  On the utterance "moan" it answers from
the command-category bank *without* any deduplication: with the history
already containing the assistant line it returns, it repeats that line
even though the whole flirty bank (level 0) is still unused. -/
theorem C3_counterexample :
    generate_fallback_response "moan"
        [{ role := "assistant", content := "*moans loudly* Oh god, yes..." }]
        0 0
      ∈ usedOf
        [{ role := "assistant",
           content := "*moans loudly* Oh god, yes..." }] ∧
    (∃ c ∈ banks.getD 0 [],
      c ∉ usedOf
        [{ role := "assistant",
           content := "*moans loudly* Oh god, yes..." }]) :=
  ⟨by decide,
    ⟨"Hey there, sexy... I\x27ve been waiting for your call.", by decide,
      by decide⟩⟩

/-- Claim C3 (corrected, amended): deduplication holds only for the
tier-bank walk: when the utterance matches none of the four
command-category keyword groups, the selector filters previously
emitted assistant lines out of each tier's candidate set while walking
from `min(level, maxTier)` down to 0, so — as long as some candidate at
or below the current level has not yet been emitted — the returned
reply is never a previously emitted line.  (Command-category replies
bypass this filter, and the orchestrator never appends to the history
it deduplicates against.) -/
theorem C3_dedup_in_bank_walk (u : String) (hist : List Msg)
    (level pick : Nat) (hcmd : commandMatch u = false)
    (hex : ∃ lvl', lvl' ≤ min level 3 ∧ ∃ c ∈ banks.getD lvl' [],
      c ∉ usedOf hist) :
    generate_fallback_response u hist level pick ∉ usedOf hist := by
  simp only [commandMatch, Bool.or_eq_false_iff] at hcmd
  obtain ⟨⟨⟨h1, h2⟩, h3⟩, h4⟩ := hcmd
  unfold generate_fallback_response
  simp only [h1, h2, h3, h4, Bool.false_eq_true, if_false]
  have hs := bankWalk_isSome (usedOf hist) pick
    (min level (banks.length - 1)) hex
  cases hbw : bankWalk (usedOf hist) pick
      (min level (banks.length - 1)) with
  | none => rw [hbw] at hs; exact absurd hs (by simp)
  | some r =>
      simp only [hbw]
      exact bankWalk_not_used (usedOf hist) pick
        (min level (banks.length - 1)) r hbw

/-- Witness for C3's amended theorem: the non-command utterance
"so anyway" on an empty history at level 2. -/
theorem C3_witness :
    generate_fallback_response "so anyway" [] 2 0 ∉ usedOf [] :=
  C3_dedup_in_bank_walk "so anyway" [] 2 0 (by decide)
    ⟨0, by decide,
      ⟨"Hey there, sexy... I\x27ve been waiting for your call.", by decide,
        by decide⟩⟩

/-! ## Claim C4: explicit-mode persistence -/

/-- Claim C4 (corrected) counterexample: during the explicit cooldown, a
no-trigger utterance that matches no contextual category ("hello") gets
a reply drawn from the generic filthy tier bank (level 3), not from any
contextual-explicit-category candidate set — contradicting "produces a
contextual-explicit-category reply rather than a generic tier-bank
reply".  (The cooldown itself does decrement from 3 to 2.) -/
theorem C4_counterexample :
    hasExplicitTrigger "hello" = false ∧
    (generate_response "hello"
        { initState with explicit_mode := true, explicit_cooldown := 3 }
        [] false ApiOutcome.networkError 0).2.explicit_cooldown = 2 ∧
    (generate_response "hello"
        { initState with explicit_mode := true, explicit_cooldown := 3 }
        [] false ApiOutcome.networkError 0).2.last_ai ∈ filthy ∧
    (generate_response "hello"
        { initState with explicit_mode := true, explicit_cooldown := 3 }
        [] false ApiOutcome.networkError 0).2.last_ai ∉
      contextualCategoryReplies :=
  ⟨by decide, by decide, by decide, by decide⟩

/-- Claim C4 (corrected, amended): a turn containing an explicit-trigger
keyword enters explicit mode and sets `explicitCooldown = 3`; each
following no-trigger turn with positive cooldown decrements it by 1 and
routes the reply through the contextual-explicit generator (never the
external provider) — which yields a contextual-category reply when the
utterance matches one of the eight categories, and otherwise a generic
filthy-tier (level 3) bank reply. -/
theorem C4_explicit_mode_persistence :
    (∀ u s hist apiKey api pick, hasExplicitTrigger u = true →
      (generate_response u s hist apiKey api pick).2.explicit_mode =
          true ∧
        (generate_response u s hist apiKey api pick).2.explicit_cooldown
          = 3 ∧
        (generate_response u s hist apiKey api pick).1 =
          sanitize_for_speech
            (generate_contextual_explicit_response u hist pick)) ∧
    (∀ u s hist apiKey api pick, hasExplicitTrigger u = false →
      0 < s.explicit_cooldown →
      (generate_response u s hist apiKey api pick).2.explicit_cooldown =
          s.explicit_cooldown - 1 ∧
        (generate_response u s hist apiKey api pick).1 =
          sanitize_for_speech
            (generate_contextual_explicit_response u hist pick)) := by
  constructor
  · intro u s hist apiKey api pick h
    unfold generate_response
    simp [h]
  · intro u s hist apiKey api pick h hcd
    unfold generate_response
    simp [h, hcd]

/-- Witness for C4's amended theorem: the trigger turn "touch" on a
fresh call, then the no-trigger turn "hello" under cooldown 3. -/
theorem C4_witness :
    ((generate_response "touch" initState [] false ApiOutcome.networkError
          0).2.explicit_mode = true ∧
      (generate_response "touch" initState [] false ApiOutcome.networkError
          0).2.explicit_cooldown = 3 ∧
      (generate_response "touch" initState [] false ApiOutcome.networkError
          0).1 =
        sanitize_for_speech
          (generate_contextual_explicit_response "touch" [] 0)) ∧
    ((generate_response "hello" { initState with explicit_cooldown := 3 }
          [] false ApiOutcome.networkError 0).2.explicit_cooldown =
        ({ initState with explicit_cooldown := 3 } :
          CallState).explicit_cooldown - 1 ∧
      (generate_response "hello" { initState with explicit_cooldown := 3 }
          [] false ApiOutcome.networkError 0).1 =
        sanitize_for_speech
          (generate_contextual_explicit_response "hello" [] 0)) :=
  ⟨C4_explicit_mode_persistence.1 "touch" initState [] false
      ApiOutcome.networkError 0 (by decide),
    C4_explicit_mode_persistence.2 "hello"
      { initState with explicit_cooldown := 3 } [] false
      ApiOutcome.networkError 0 (by decide) (by decide)⟩

/-! ## Claim C7: clearing a call -/

/-- Claim C7 (code bug): the claim — clearing a call identifier removes
both its `CallState` and its `ConversationHistory`, and a subsequent
turn behaves as a fresh call — matches the spec and the evident intent
of `clear_conversation`, but the code never does it: nothing ever
writes `self.conversation_history`, and the deletion of the call state
is nested inside the history-entry check, so after a processed turn the
clear is a complete no-op.  Concretely: after one turn "touch" for call
"c1", clearing "c1" leaves its `CallState` (with `explicit_cooldown =
3`) in place, the handler is unchanged, and the next turn "hello"
answers out of the stale explicit mode instead of as a fresh call. -/
theorem C7_clear_is_noop :
    ((clear_conversation
        (handler_generate emptyHandler "c1" "touch" false
          ApiOutcome.networkError 0).2 "c1").call_state.lookup "c1" ≠
      none) ∧
    clear_conversation
        (handler_generate emptyHandler "c1" "touch" false
          ApiOutcome.networkError 0).2 "c1" =
      (handler_generate emptyHandler "c1" "touch" false
        ApiOutcome.networkError 0).2 ∧
    (handler_generate
        (clear_conversation
          (handler_generate emptyHandler "c1" "touch" false
            ApiOutcome.networkError 0).2 "c1") "c1" "hello" false
        ApiOutcome.networkError 0).1 ≠
      (handler_generate emptyHandler "c1" "hello" false
        ApiOutcome.networkError 0).1 :=
  ⟨by decide, by decide, by decide⟩

end Xexi
